import Mathlib

/-!
Verification of the email-labeler core logic (artifact contract, label
alignment, degenerate-input guards), shallowly embedded from the four
Python sources: `train_important.py`, `infer_important.py`,
`train_label_router.py`, `infer_label_router.py`.

Probabilities are modelled as rationals (`ℚ`); the external collaborators
(sentence-transformers embedding, scikit-learn logistic regression, pickle)
are abstracted as parameters or plain structures carrying exactly the data
the repository's own code observes.
-/

namespace EmailLabeler

/-- The fitted Probabilistic Classifier, as the repository's code sees it:
an ordered list `classes_` of the labels it learned, plus opaque state.
The repository never inspects the state beyond `classes_` and
`predict_proba`. -/
structure Classifier where
  classes_ : List String
  blob : String
deriving DecidableEq, Repr

/-- A training sample for the importance head. `text` and `important`
model `row.get("text")` and `row.get("important")`: JSON rows may omit
either key. -/
structure ImpSample where
  text : Option String
  important : Option Bool
deriving DecidableEq, Repr

/-- A training sample for the label-router head, with an optional
`target_label` string. -/
structure RouterSample where
  text : Option String
  target_label : Option String
deriving DecidableEq, Repr

/-- `row.get("text") or ""` from both training scripts: a missing or
empty text becomes the empty string. -/
def textOrEmpty (t : Option String) : String :=
  match t with
  | none => ""
  | some s => s

/-- `labels = [bool(row.get("important")) for row in data]`
(train_important.py line 30): a missing flag is treated as `False`. -/
def impLabels (data : List ImpSample) : List Bool :=
  data.map (fun r => r.important.getD false)

/-- `texts = [row.get("text") or "" for row in data]`
(train_important.py line 29). -/
def impTexts (data : List ImpSample) : List String :=
  data.map (fun r => textOrEmpty r.text)

/-- `targets = [row.get("target_label") or "other" for row in data]`
(train_label_router.py line 32): a missing or empty target label becomes
the literal `"other"`. -/
def routerTargets (data : List RouterSample) : List String :=
  data.map (fun r =>
    match r.target_label with
    | none => "other"
    | some t => if t = "" then "other" else t)

/-- `texts = [row.get("text") or "" for row in data]`
(train_label_router.py line 31). -/
def routerTexts (data : List RouterSample) : List String :=
  data.map (fun r => textOrEmpty r.text)

/-- Decidable string comparison routed through the character lists
(`String ≤` coincides with `≤` on `toList`), so that concrete label
catalogs evaluate inside the kernel. -/
def strLeDec : DecidableRel (α := String) (· ≤ ·) := fun a b =>
  decidable_of_iff (a.toList ≤ b.toList) String.le_iff_toList_le.symm

/-- `label_list = sorted(set(targets))` (train_label_router.py line 35):
the lexicographically sorted list of distinct target labels. -/
def labelCatalog (targets : List String) : List String :=
  @List.insertionSort String (· ≤ ·) strLeDec targets.dedup

theorem labelCatalog_perm_dedup (targets : List String) :
    List.Perm (labelCatalog targets) targets.dedup :=
  @List.perm_insertionSort String (· ≤ ·) strLeDec targets.dedup

theorem labelCatalog_sorted (targets : List String) :
    List.Sorted (· ≤ ·) (labelCatalog targets) :=
  @List.sorted_insertionSort String (· ≤ ·) strLeDec _ _ targets.dedup

theorem labelCatalog_nodup (targets : List String) :
    (labelCatalog targets).Nodup :=
  (labelCatalog_perm_dedup targets).nodup_iff.mpr targets.nodup_dedup

theorem mem_labelCatalog {x : String} {targets : List String} :
    x ∈ labelCatalog targets ↔ x ∈ targets := by
  rw [(labelCatalog_perm_dedup targets).mem_iff, List.mem_dedup]

theorem labelCatalog_eq_of_perm {t₁ t₂ : List String} (h : List.Perm t₁ t₂) :
    labelCatalog t₁ = labelCatalog t₂ :=
  List.eq_of_perm_of_sorted
    ((labelCatalog_perm_dedup t₁).trans (h.dedup.trans (labelCatalog_perm_dedup t₂).symm))
    (labelCatalog_sorted t₁) (labelCatalog_sorted t₂)

/-! ### Artifacts and codec

Training pickles a Python dict (`pickle.dump({...}, f)`) and inference reads
its keys back (`artifact.get("embedder_name", "all-MiniLM-L6-v2")`,
`artifact["classifier"]`, `artifact["label_list"]`). The pickled dict is
modelled as a record of optional fields; pickle itself round-trips the dict
unchanged, so encode/decode live at the dict level, exactly mirroring the
key accesses the scripts perform. -/

/-- The importance artifact written by `train_important.py` line 49:
`{"embedder_name": model_name, "classifier": clf}`. -/
structure ImpArtifact where
  embedder_name : String
  classifier : Classifier
deriving DecidableEq, Repr

/-- The router artifact written by `train_label_router.py` lines 55-59:
`{"embedder_name": model_name, "classifier": clf, "label_list": label_list}`. -/
structure RouterArtifact where
  embedder_name : String
  classifier : Classifier
  label_list : List String
deriving DecidableEq, Repr

/-- The pickled dict as stored on disk: each key independently present or
absent. -/
structure ArtifactDict where
  embedder_name : Option String
  classifier : Option Classifier
  label_list : Option (List String)
deriving DecidableEq, Repr

/-- Errors raised while reading an artifact dict back; a missing mandatory
key (`artifact["classifier"]`, `artifact["label_list"]`) raises `KeyError`,
the spec's `IncompleteArtifact`, naming the missing field. -/
inductive ArtifactError where
  | incompleteArtifact (field : String)
deriving DecidableEq, Repr

/-- `pickle.dump({"embedder_name": ..., "classifier": ...}, f)`
(train_important.py lines 48-49). -/
def encodeImpArtifact (a : ImpArtifact) : ArtifactDict :=
  { embedder_name := some a.embedder_name
    classifier := some a.classifier
    label_list := none }

/-- `pickle.dump({"embedder_name": ..., "classifier": ..., "label_list": ...}, f)`
(train_label_router.py lines 54-59). -/
def encodeRouterArtifact (a : RouterArtifact) : ArtifactDict :=
  { embedder_name := some a.embedder_name
    classifier := some a.classifier
    label_list := some a.label_list }

/-- Artifact loading in `infer_important.py` lines 28-32:
`embedder_name = artifact.get("embedder_name", "all-MiniLM-L6-v2")` — a
missing embedder name is silently replaced by the default model id —
while `classifier = artifact["classifier"]` raises on a missing key. -/
def decodeImpArtifact (d : ArtifactDict) : Except ArtifactError ImpArtifact :=
  match d.classifier with
  | none => .error (.incompleteArtifact "classifier")
  | some cl => .ok { embedder_name := d.embedder_name.getD "all-MiniLM-L6-v2", classifier := cl }

/-- Artifact loading in `infer_label_router.py` lines 29-34: same default
for `embedder_name`; `artifact["classifier"]` and `artifact["label_list"]`
raise on a missing key. -/
def decodeRouterArtifact (d : ArtifactDict) : Except ArtifactError RouterArtifact :=
  match d.classifier with
  | none => .error (.incompleteArtifact "classifier")
  | some cl =>
    match d.label_list with
    | none => .error (.incompleteArtifact "label_list")
    | some ll =>
      .ok { embedder_name := d.embedder_name.getD "all-MiniLM-L6-v2"
            classifier := cl
            label_list := ll }

/-! ### Training pipelines

The embedding provider and the classifier fit are external collaborators;
they are passed in as a function `fit` from the texts and labels to a
fitted `Classifier`. Everything else is the scripts' own logic. -/

/-- Outcome of a `train_important.py` run, after the argv check: either
the empty-dataset exit, the degenerate skip (carrying the sample count and
the `labels[0]` access, which is `none` exactly when the index would be out
of bounds), or a trained artifact. -/
inductive ImpTrainResult where
  | emptyDataset
  | skipped (samples : Nat) (reasonLabel : Option Bool)
  | trained (samples : Nat) (artifact : ImpArtifact)
deriving DecidableEq, Repr

/-- Process exit code of each importance-training outcome
(`sys.exit(1)` on empty data, `sys.exit(0)` on skip, implicit 0 on success). -/
def ImpTrainResult.exitCode : ImpTrainResult → Nat
  | .emptyDataset => 1
  | .skipped _ _ => 0
  | .trained _ _ => 0

/-- The artifact an importance-training outcome writes to disk, if any. -/
def ImpTrainResult.artifactWritten : ImpTrainResult → Option ImpArtifact
  | .trained _ a => some a
  | _ => none

/-- `main` of `train_important.py` after argument parsing: empty-data check
(lines 17-19), label extraction (line 30), degenerate guard
`len(set(labels)) < 2` with skip result quoting `labels[0]` (lines 32-38),
else fit and write the artifact (lines 40-51). -/
def trainImportant (fit : List String → List Bool → Classifier)
    (modelName : String) (data : List ImpSample) : ImpTrainResult :=
  if data.isEmpty then .emptyDataset
  else
    let labels := impLabels data
    if labels.dedup.length < 2 then
      .skipped data.length labels[0]?
    else
      .trained data.length
        { embedder_name := modelName, classifier := fit (impTexts data) labels }

/-- Outcome of a `train_label_router.py` run: empty-dataset exit, the
degenerate skip carrying the sample count and `len(label_list)`, or a
trained artifact together with the reported label count. -/
inductive RouterTrainResult where
  | emptyDataset
  | skipped (samples : Nat) (labels : Nat)
  | trained (samples : Nat) (labels : Nat) (artifact : RouterArtifact)
deriving DecidableEq, Repr

/-- Process exit code of each router-training outcome. -/
def RouterTrainResult.exitCode : RouterTrainResult → Nat
  | .emptyDataset => 1
  | .skipped _ _ => 0
  | .trained _ _ _ => 0

/-- The artifact a router-training outcome writes to disk, if any. -/
def RouterTrainResult.artifactWritten : RouterTrainResult → Option RouterArtifact
  | .trained _ _ a => some a
  | _ => none

/-- `main` of `train_label_router.py` after argument parsing: empty-data
check (lines 19-21), target extraction (line 32), sorted distinct catalog
(line 35), degenerate guard `len(label_list) < 2` (lines 37-44), else fit
and write the artifact with the catalog (lines 46-61). -/
def trainLabelRouter (fit : List String → List String → Classifier)
    (modelName : String) (data : List RouterSample) : RouterTrainResult :=
  if data.isEmpty then .emptyDataset
  else
    let targets := routerTargets data
    let label_list := labelCatalog targets
    if label_list.length < 2 then
      .skipped data.length label_list.length
    else
      .trained data.length label_list.length
        { embedder_name := modelName
          classifier := fit (routerTexts data) targets
          label_list := label_list }

/-! ### Inference pipelines

Inference receives a probability vector from the classifier's
`predict_proba`; the vector itself is collaborator output, so the
pipelines are modelled as functions of it. -/

/-- `round(x, 4)` from `infer_important.py` line 42: round to 4 decimal
digits (ties modelled half-up on exact rationals). -/
def round4 (q : ℚ) : ℚ :=
  (round (q * 10000) : ℤ) / 10000

/-- `p_important = float(proba[1]) if len(proba) > 1 else float(proba[0])`
(infer_important.py line 39). The Python indexings are in bounds whenever
the vector is non-empty; out of bounds is modelled by the (unreached)
default 0. -/
def pImportant (proba : List ℚ) : ℚ :=
  if proba.length > 1 then proba.getD 1 0 else proba.getD 0 0

/-- The JSON object printed by `infer_important.py` line 42. -/
structure ImpInferOutput where
  important : Bool
  probability : ℚ
deriving DecidableEq, Repr

/-- `important = p_important >= 0.5` and the rounded probability
(infer_important.py lines 40-42). -/
def inferImportant (proba : List ℚ) : ImpInferOutput :=
  { important := decide (pImportant proba ≥ 1/2)
    probability := round4 (pImportant proba) }

/-- The alignment loop of `infer_label_router.py` lines 42-49: one entry
per catalog label in catalog order; a label found in `classes` takes the
probability at its first position there (`classes.index(label)`), an
absent label takes 0.0. The Python indexing `proba[idx]` is in bounds
whenever `proba` has one entry per class; out of bounds is modelled by the
(unreached) default 0. -/
def alignHeadWeights (label_list classes : List String) (proba : List ℚ) :
    List (String × ℚ) :=
  label_list.map fun label =>
    if label ∈ classes then (label, proba.getD (List.indexOf label classes) 0)
    else (label, 0)

/-- The JSON object printed by `infer_label_router.py` line 51;
`head_weights` is kept as the ordered association list the loop builds
(the Python dict preserves insertion order). -/
structure RouterInferOutput where
  head_weights : List (String × ℚ)
  label_list : List String
deriving DecidableEq, Repr

/-- `main` of `infer_label_router.py` from `predict_proba` onwards
(lines 40-51), as a function of the loaded artifact and the probability
vector. -/
def inferLabelRouter (a : RouterArtifact) (proba : List ℚ) : RouterInferOutput :=
  { head_weights := alignHeadWeights a.label_list a.classifier.classes_ proba
    label_list := a.label_list }

/-! ### Claim theorems -/

/-- C5: label-catalog determinism and order-independence — permuting the
training samples leaves the produced catalog unchanged, and the catalog is
exactly the lexicographically sorted list of the distinct target labels
(sorted, duplicate-free, containing precisely the targets). -/
theorem catalog_order_independence (d₁ d₂ : List RouterSample)
    (h : List.Perm d₁ d₂) :
    labelCatalog (routerTargets d₁) = labelCatalog (routerTargets d₂) ∧
    List.Sorted (· ≤ ·) (labelCatalog (routerTargets d₁)) ∧
    (labelCatalog (routerTargets d₁)).Nodup ∧
    ∀ x, x ∈ labelCatalog (routerTargets d₁) ↔ x ∈ routerTargets d₁ :=
  ⟨labelCatalog_eq_of_perm (h.map _), labelCatalog_sorted _, labelCatalog_nodup _,
   fun _ => mem_labelCatalog⟩

/-- Witness for C5 at the spec's example: the targets `billing, auth, ui`
in two different sample orders give the same catalog. -/
theorem catalog_order_independence_witness :
    labelCatalog (routerTargets
        [⟨some "t1", some "billing"⟩, ⟨some "t2", some "auth"⟩, ⟨some "t3", some "ui"⟩]) =
      labelCatalog (routerTargets
        [⟨some "t2", some "auth"⟩, ⟨some "t3", some "ui"⟩, ⟨some "t1", some "billing"⟩]) ∧
    ("auth" ∈ labelCatalog (routerTargets
        [⟨some "t1", some "billing"⟩, ⟨some "t2", some "auth"⟩, ⟨some "t3", some "ui"⟩]) ↔
      "auth" ∈ routerTargets
        [⟨some "t1", some "billing"⟩, ⟨some "t2", some "auth"⟩, ⟨some "t3", some "ui"⟩]) :=
  ⟨(catalog_order_independence
      [⟨some "t1", some "billing"⟩, ⟨some "t2", some "auth"⟩, ⟨some "t3", some "ui"⟩]
      [⟨some "t2", some "auth"⟩, ⟨some "t3", some "ui"⟩, ⟨some "t1", some "billing"⟩]
      (by decide)).1,
   (catalog_order_independence
      [⟨some "t1", some "billing"⟩, ⟨some "t2", some "auth"⟩, ⟨some "t3", some "ui"⟩]
      [⟨some "t2", some "auth"⟩, ⟨some "t3", some "ui"⟩, ⟨some "t1", some "billing"⟩]
      (by decide)).2.2.2 "auth"⟩

/-- C6: artifact codec round-trip — decoding an encoded artifact of either
variant (binary importance or router) returns it unchanged, field for
field, label-catalog order included. -/
theorem artifact_roundtrip (a : ImpArtifact) (b : RouterArtifact) :
    decodeImpArtifact (encodeImpArtifact a) = .ok a ∧
    decodeRouterArtifact (encodeRouterArtifact b) = .ok b :=
  ⟨rfl, rfl⟩

/-- C7 counterexample: an artifact dict missing the `embedder_name` key
(the spec's `embedding_model_id`) does NOT fail to decode — both loaders
proceed with the substitute default `"all-MiniLM-L6-v2"`. -/
theorem incompleteArtifact_counterexample :
    decodeImpArtifact
        { embedder_name := none, classifier := some ⟨["x"], "s"⟩, label_list := none } =
      .ok { embedder_name := "all-MiniLM-L6-v2", classifier := ⟨["x"], "s"⟩ } ∧
    decodeRouterArtifact
        { embedder_name := none, classifier := some ⟨["x"], "s"⟩,
          label_list := some ["a", "b"] } =
      .ok { embedder_name := "all-MiniLM-L6-v2", classifier := ⟨["x"], "s"⟩,
            label_list := ["a", "b"] } :=
  ⟨rfl, rfl⟩

/-- C7 amended: a dict missing the `classifier` key (the spec's
`classifier_state`) fails to load in both inference pipelines with the
`IncompleteArtifact` error; a missing `embedder_name` alone is instead
replaced by the default model id. -/
theorem incompleteArtifact_amended (d : ArtifactDict) (hc : d.classifier = none) :
    decodeImpArtifact d = .error (.incompleteArtifact "classifier") ∧
    decodeRouterArtifact d = .error (.incompleteArtifact "classifier") := by
  obtain ⟨e, c, l⟩ := d
  subst hc
  exact ⟨rfl, rfl⟩

/-- Witness for C7's amended statement at a concrete dict with no
classifier entry. -/
theorem incompleteArtifact_amended_witness :
    decodeImpArtifact { embedder_name := some "m", classifier := none, label_list := none } =
      .error (.incompleteArtifact "classifier") ∧
    decodeRouterArtifact { embedder_name := some "m", classifier := none, label_list := none } =
      .error (.incompleteArtifact "classifier") :=
  incompleteArtifact_amended _ rfl

/-- C9: the importance flag is decided on the un-rounded probability and
rounding happens only for display — at the probability vector
`[0.50003, 0.49997]` the output is `important = false` with printed
probability `0.5`. -/
theorem threshold_precedes_rounding :
    (inferImportant [(50003 : ℚ)/100000, 49997/100000]).important = false ∧
    (inferImportant [(50003 : ℚ)/100000, 49997/100000]).probability = 1/2 := by
  constructor
  · norm_num [inferImportant, pImportant, List.getD]
  · norm_num [inferImportant, pImportant, round4, round_eq, List.getD]

/-- In a non-empty list whose deduplication has fewer than two elements,
every element equals the head. -/
theorem eq_head_of_dedup_length_lt_two {α : Type} [DecidableEq α] {b : α} {l : List α}
    (h : (b :: l).dedup.length < 2) : ∀ x ∈ b :: l, x = b := by
  intro x hx
  have hb : b ∈ (b :: l).dedup := List.mem_dedup.mpr (List.mem_cons_self b l)
  have hxd : x ∈ (b :: l).dedup := List.mem_dedup.mpr hx
  have h1 : (b :: l).dedup.length = 1 := by
    have := List.length_pos.mpr (List.ne_nil_of_mem hb)
    omega
  obtain ⟨c, hc⟩ := List.length_eq_one.mp h1
  rw [hc, List.mem_singleton] at hb hxd
  rw [hxd, hb]

/-- C3: importance-training degenerate guard — a non-empty sample list
whose boolean labels have fewer than two distinct values yields the
structured skip result whose reason quotes the single observed label
(`labels[0]`, equal to every label), writes no artifact, and exits 0. -/
theorem importance_degenerate_guard (fit : List String → List Bool → Classifier)
    (modelName : String) (data : List ImpSample) (hne : data ≠ [])
    (hdeg : (impLabels data).dedup.length < 2) :
    ∃ b : Bool,
      trainImportant fit modelName data = .skipped data.length (some b) ∧
      (∀ x ∈ impLabels data, x = b) ∧
      (trainImportant fit modelName data).exitCode = 0 ∧
      (trainImportant fit modelName data).artifactWritten = none := by
  obtain ⟨s, rest, rfl⟩ := List.exists_cons_of_ne_nil hne
  refine ⟨s.important.getD false, ?_⟩
  have hres : trainImportant fit modelName (s :: rest) =
      .skipped (s :: rest).length (some (s.important.getD false)) := by
    unfold trainImportant
    rw [if_neg (by simp), if_pos hdeg]
    simp [impLabels]
  refine ⟨hres, ?_, by rw [hres]; rfl, by rw [hres]; rfl⟩
  have hcons : impLabels (s :: rest) = s.important.getD false :: impLabels rest := by
    simp [impLabels]
  rw [hcons] at hdeg ⊢
  exact eq_head_of_dedup_length_lt_two hdeg

/-- Witness for C3 at three samples all flagged important. -/
theorem importance_degenerate_guard_witness :
    ∃ b : Bool,
      trainImportant (fun _ _ => ⟨["f", "t"], ""⟩) "m"
          [⟨some "a", some true⟩, ⟨some "b", some true⟩, ⟨some "c", some true⟩] =
        .skipped 3 (some b) ∧
      (∀ x ∈ impLabels
          [⟨some "a", some true⟩, ⟨some "b", some true⟩, ⟨some "c", some true⟩], x = b) ∧
      (trainImportant (fun _ _ => ⟨["f", "t"], ""⟩) "m"
          [⟨some "a", some true⟩, ⟨some "b", some true⟩, ⟨some "c", some true⟩]).exitCode = 0 ∧
      (trainImportant (fun _ _ => ⟨["f", "t"], ""⟩) "m"
          [⟨some "a", some true⟩, ⟨some "b", some true⟩,
            ⟨some "c", some true⟩]).artifactWritten = none :=
  importance_degenerate_guard (fun _ _ => ⟨["f", "t"], ""⟩) "m"
    [⟨some "a", some true⟩, ⟨some "b", some true⟩, ⟨some "c", some true⟩]
    (by decide) (by decide)

/-- C10: degenerate-branch indexing safety — for every non-empty input the
label list is non-empty (so the `labels[0]` access building the skip
reason is in bounds), and any skip result the pipeline produces carries an
actual label, never the out-of-bounds marker. -/
theorem degenerate_index_inbounds (fit : List String → List Bool → Classifier)
    (modelName : String) (data : List ImpSample) (hne : data ≠ []) :
    0 < (impLabels data).length ∧
    ∀ n o, trainImportant fit modelName data = .skipped n o → o.isSome = true := by
  have hlen : 0 < (impLabels data).length := by
    simpa [impLabels, List.length_pos] using hne
  refine ⟨hlen, fun n o h => ?_⟩
  unfold trainImportant at h
  split at h
  · cases h
  · dsimp only at h
    split at h
    · cases h
      simp [List.getElem?_eq_getElem hlen]
    · cases h

/-- Witness for C10 at a single degenerate sample. -/
theorem degenerate_index_inbounds_witness :
    0 < (impLabels [⟨some "a", some true⟩]).length ∧
    ∀ n o, trainImportant (fun _ _ => ⟨["f", "t"], ""⟩) "m" [⟨some "a", some true⟩] =
      .skipped n o → o.isSome = true :=
  degenerate_index_inbounds (fun _ _ => ⟨["f", "t"], ""⟩) "m"
    [⟨some "a", some true⟩] (by decide)

/-- C4: router-training degenerate guard — a non-empty sample list with
fewer than two distinct target labels yields the skip result reporting the
sample count and a label count of 1, writes no artifact, and exits 0. -/
theorem router_degenerate_guard (fit : List String → List String → Classifier)
    (modelName : String) (data : List RouterSample) (hne : data ≠ [])
    (hdeg : (routerTargets data).dedup.length < 2) :
    trainLabelRouter fit modelName data = .skipped data.length 1 ∧
    (trainLabelRouter fit modelName data).exitCode = 0 ∧
    (trainLabelRouter fit modelName data).artifactWritten = none := by
  have hlen : (labelCatalog (routerTargets data)).length = (routerTargets data).dedup.length :=
    (labelCatalog_perm_dedup _).length_eq
  have hne' : routerTargets data ≠ [] := by
    obtain ⟨s, rest, rfl⟩ := List.exists_cons_of_ne_nil hne
    simp [routerTargets]
  have hd1 : (routerTargets data).dedup.length = 1 := by
    have hpos : 0 < (routerTargets data).dedup.length := by
      rw [List.length_pos, Ne, List.dedup_eq_nil]
      exact hne'
    omega
  have hres : trainLabelRouter fit modelName data =
      .skipped data.length (labelCatalog (routerTargets data)).length := by
    unfold trainLabelRouter
    rw [if_neg (by simp [hne]), if_pos (by rw [hlen]; omega)]
  rw [hres, hlen, hd1]
  exact ⟨rfl, rfl, rfl⟩

/-- Witness for C4 at two samples sharing the target label `x`. -/
theorem router_degenerate_guard_witness :
    trainLabelRouter (fun _ t => ⟨t.dedup, ""⟩) "m"
        [⟨some "a", some "x"⟩, ⟨some "b", some "x"⟩] = .skipped 2 1 ∧
    (trainLabelRouter (fun _ t => ⟨t.dedup, ""⟩) "m"
        [⟨some "a", some "x"⟩, ⟨some "b", some "x"⟩]).exitCode = 0 ∧
    (trainLabelRouter (fun _ t => ⟨t.dedup, ""⟩) "m"
        [⟨some "a", some "x"⟩, ⟨some "b", some "x"⟩]).artifactWritten = none :=
  router_degenerate_guard (fun _ t => ⟨t.dedup, ""⟩) "m"
    [⟨some "a", some "x"⟩, ⟨some "b", some "x"⟩] (by decide) (by decide)

/-- C1: router inference alignment completeness — given a probability
vector with one entry per internal class, the output keeps `label_list`
intact, emits exactly one head weight per catalog label in catalog order,
gives a label found among the internal classes the probability at its
position there (an in-bounds index), and gives an absent label weight 0. -/
theorem router_alignment_completeness (a : RouterArtifact) (proba : List ℚ)
    (hp : proba.length = a.classifier.classes_.length) (hnd : a.label_list.Nodup) :
    (inferLabelRouter a proba).label_list = a.label_list ∧
    (inferLabelRouter a proba).head_weights.map Prod.fst = a.label_list ∧
    ((inferLabelRouter a proba).head_weights.map Prod.fst).Nodup ∧
    (∀ label ∈ a.label_list, label ∈ a.classifier.classes_ →
      List.indexOf label a.classifier.classes_ < proba.length ∧
      (label, proba.getD (List.indexOf label a.classifier.classes_) 0) ∈
        (inferLabelRouter a proba).head_weights) ∧
    (∀ label ∈ a.label_list, label ∉ a.classifier.classes_ →
      (label, (0 : ℚ)) ∈ (inferLabelRouter a proba).head_weights) := by
  have hfst : ∀ L : List String,
      (alignHeadWeights L a.classifier.classes_ proba).map Prod.fst = L := by
    intro L
    induction L with
    | nil => rfl
    | cons x t ih =>
      by_cases hx : x ∈ a.classifier.classes_ <;>
        simp [alignHeadWeights, hx] <;> simpa [alignHeadWeights] using ih
  refine ⟨rfl, hfst a.label_list, ?_, ?_, ?_⟩
  · show (List.map Prod.fst (alignHeadWeights a.label_list a.classifier.classes_ proba)).Nodup
    rw [hfst a.label_list]
    exact hnd
  · intro label hl hc
    refine ⟨by rw [hp]; exact List.indexOf_lt_length.mpr hc, ?_⟩
    have heq : (label, proba.getD (List.indexOf label a.classifier.classes_) 0) =
        (fun l => if l ∈ a.classifier.classes_ then
          (l, proba.getD (List.indexOf l a.classifier.classes_) 0) else (l, 0)) label := by
      simp [hc]
    rw [heq]
    exact List.mem_map_of_mem _ hl
  · intro label hl hc
    have heq : (label, (0 : ℚ)) =
        (fun l => if l ∈ a.classifier.classes_ then
          (l, proba.getD (List.indexOf l a.classifier.classes_) 0) else (l, 0)) label := by
      simp [hc]
    rw [heq]
    exact List.mem_map_of_mem _ hl

/-- Witness for C1 at the spec's example: catalog `a, b, c`, internal
classes `a, c`, probabilities `0.9, 0.1`. -/
theorem router_alignment_completeness_witness :
    (inferLabelRouter
        { embedder_name := "m", classifier := ⟨["a", "c"], "s"⟩,
          label_list := ["a", "b", "c"] } [9/10, 1/10]).label_list = ["a", "b", "c"] ∧
    ("a", ([(9 : ℚ)/10, 1/10].getD (List.indexOf "a" ["a", "c"]) 0)) ∈
      (inferLabelRouter
        { embedder_name := "m", classifier := ⟨["a", "c"], "s"⟩,
          label_list := ["a", "b", "c"] } [9/10, 1/10]).head_weights ∧
    ("b", (0 : ℚ)) ∈
      (inferLabelRouter
        { embedder_name := "m", classifier := ⟨["a", "c"], "s"⟩,
          label_list := ["a", "b", "c"] } [9/10, 1/10]).head_weights :=
  ⟨(router_alignment_completeness
      { embedder_name := "m", classifier := ⟨["a", "c"], "s"⟩,
        label_list := ["a", "b", "c"] } [9/10, 1/10] rfl (by decide)).1,
   ((router_alignment_completeness
      { embedder_name := "m", classifier := ⟨["a", "c"], "s"⟩,
        label_list := ["a", "b", "c"] } [9/10, 1/10] rfl (by decide)).2.2.2.1
      "a" (by decide) (by decide)).2,
   (router_alignment_completeness
      { embedder_name := "m", classifier := ⟨["a", "c"], "s"⟩,
        label_list := ["a", "b", "c"] } [9/10, 1/10] rfl (by decide)).2.2.2.2
      "b" (by decide) (by decide)⟩

/-- C2: binary importance inference postcondition — `P(important)` is the
entry at index 1 when the vector has more than one entry and the sole
entry when it has exactly one; the flag is true exactly when that
probability is at least 0.5; the reported probability is its 4-digit
rounding. -/
theorem binary_inference_postcondition (proba : List ℚ) (hp : 1 ≤ proba.length) :
    (∀ h2 : 1 < proba.length, pImportant proba = proba.get ⟨1, h2⟩) ∧
    (∀ h1 : proba.length = 1, pImportant proba = proba.get ⟨0, by omega⟩) ∧
    ((inferImportant proba).important = true ↔ 1/2 ≤ pImportant proba) ∧
    (inferImportant proba).probability = round4 (pImportant proba) := by
  refine ⟨?_, ?_, ?_, rfl⟩
  · intro h2
    rw [pImportant, if_pos h2, List.getD_eq_getElem?_getD,
      List.getElem?_eq_getElem h2, Option.getD_some, List.get_eq_getElem]
  · intro h1
    have h0 : (0 : ℕ) < proba.length := by omega
    rw [pImportant, if_neg (by omega), List.getD_eq_getElem?_getD,
      List.getElem?_eq_getElem h0, Option.getD_some, List.get_eq_getElem]
  · rw [inferImportant]
    exact decide_eq_true_iff

/-- Witness for C2 at the spec's example vector `[0.3, 0.7]`. -/
theorem binary_inference_postcondition_witness :
    pImportant [(3 : ℚ)/10, 7/10] = [(3 : ℚ)/10, 7/10].get ⟨1, by norm_num⟩ ∧
    ((inferImportant [(3 : ℚ)/10, 7/10]).important = true ↔
      1/2 ≤ pImportant [(3 : ℚ)/10, 7/10]) :=
  ⟨(binary_inference_postcondition [(3 : ℚ)/10, 7/10] (by norm_num)).1 (by norm_num),
   (binary_inference_postcondition [(3 : ℚ)/10, 7/10] (by norm_num)).2.2.1⟩

/-- C8: router-artifact class/catalog invariant — assuming the classifier
interface contract (the classes a fit produces are among the labels it was
given), every internal class of the classifier in an artifact produced by
a successful training run is a member of the artifact's label catalog. -/
theorem router_class_catalog_invariant
    (fit : List String → List String → Classifier) (modelName : String)
    (data : List RouterSample) (n k : Nat) (a : RouterArtifact)
    (hfit : ∀ texts targets : List String, ∀ c ∈ (fit texts targets).classes_, c ∈ targets)
    (htr : trainLabelRouter fit modelName data = .trained n k a) :
    ∀ c ∈ a.classifier.classes_, c ∈ a.label_list := by
  unfold trainLabelRouter at htr
  split at htr
  · cases htr
  · dsimp only at htr
    split at htr
    · cases htr
    · cases htr
      intro c hc
      exact mem_labelCatalog.mpr (hfit _ _ c hc)

/-- Witness for C8: a fit that learns the distinct given labels, two
samples with labels `a` and `b`. -/
theorem router_class_catalog_invariant_witness :
    ("a" : String) ∈
      (RouterArtifact.mk "m" (Classifier.mk (["a", "b"] : List String).dedup "")
        (labelCatalog ["a", "b"])).label_list :=
  router_class_catalog_invariant (fun _ targets => ⟨targets.dedup, ""⟩) "m"
    [⟨some "t", some "a"⟩, ⟨none, some "b"⟩] 2 2
    (RouterArtifact.mk "m" (Classifier.mk (["a", "b"] : List String).dedup "")
      (labelCatalog ["a", "b"]))
    (fun _ _ _ h => List.mem_dedup.mp h) rfl "a" (by decide)

end EmailLabeler
